import Mathlib

/-!
Shallow embedding of the folklora_backend route handlers.

Each Express handler is translated into a pure Lean function from the request
data and an explicit database state to an `Outcome` recording: the first
response emitted to the client (if any), whether the error path `next(err)`
was invoked, the resulting database state, and how many persistence-layer
queries were executed.  The external collaborators are embedded as follows:
the byte-signature sniffer `fileTypeFromBuffer` becomes an explicit
`Option String` argument (the detected MIME, `none` when unrecognized),
`bcrypt.compare` and `bcrypt.hash` become function arguments, and `jwt.sign`
with `expiresIn: '1h'` becomes a token record with `exp = iat + 3600`
(jsonwebtoken semantics of the string '1h').  SQL statements over the pooled
connection become list operations over the explicit tables; the MySQL unique
constraints on `datoteka.ime`, `kos.ime`, `labela.naziv`,
`uporabnik.uporabnisko_ime` and on the association pairs (asserted by the
data model) make the corresponding INSERT raise `ER_DUP_ENTRY`, embedded as
an error branch.  Because every `await pool.execute` is a suspension point
at which concurrent requests may commit, the check-then-insert creators take
two database states: the state observed by the pre-existence SELECT and the
state the INSERT runs against; sequential scenarios instantiate both with
the same state.
-/

namespace Folklora

/-- A row of the `datoteka` table: id, unique name, logical type, BLOB bytes. -/
structure Datoteka where
  id : Nat
  ime : String
  tip : String
  vsebina : List Nat
deriving Repr, DecidableEq

/-- A row of the `kos` table (the kosi variant): adds the damaged flag. -/
structure Kos where
  id : Nat
  ime : String
  tip : String
  vsebina : List Nat
  poskodovano : Nat
deriving Repr, DecidableEq

/-- A row of the `labela` table: id, unique name, category. -/
structure Labela where
  id : Nat
  naziv : String
  tip : String
deriving Repr, DecidableEq

/-- A row of the `komentar` table in the datoteka-variant schema. -/
structure Komentar where
  id : Nat
  datoteka_id : Nat
  besedilo : String
  poskodovano : Nat
deriving Repr, DecidableEq

/-- A row of the `komentar` table in the kos-variant schema. -/
structure KomentarK where
  id : Nat
  kos_id : Nat
  uporabnik_id : Nat
  besedilo : String
deriving Repr, DecidableEq

/-- A row of the `uporabnik` table; `geslo` holds the stored bcrypt hash. -/
structure Uporabnik where
  id : Nat
  uporabnisko_ime : String
  geslo : String
  tip_uporabnika : String
deriving Repr, DecidableEq

/-- The whole database state: one list per table, association tables as pairs. -/
structure DB where
  datoteka : List Datoteka
  kos : List Kos
  labela : List Labela
  komentar : List Komentar
  komentarK : List KomentarK
  uporabnik : List Uporabnik
  datoteka_labela : List (Nat × Nat)
  kos_labela : List (Nat × Nat)
deriving Repr, DecidableEq

/-- A signed session token as produced by `jwt.sign(payload, secret, {expiresIn})`:
the payload fields plus issued-at and expiry timestamps (seconds). -/
structure JwtToken where
  id : Nat
  uporabnisko_ime : String
  tip_uporabnika : String
  iat : Nat
  exp : Nat
deriving Repr, DecidableEq

/-- The response a handler emits: mirrors the `res` API usage in the routes. -/
inductive Response where
  | json (status : Nat) (message : String)
  | created (message : String) (url : String)
  | noContent
  | binary (contentType : String) (body : List Nat)
  | loginOk (message : String) (token : JwtToken) (uporabnisko_ime : String)
deriving Repr, DecidableEq

/-- HTTP status code of a response. -/
def Response.status : Response → Nat
  | .json s _ => s
  | .created _ _ => 201
  | .noContent => 204
  | .binary _ _ => 200
  | .loginOk _ _ _ => 200

/-- What one handler run produces: the first response written to the client
(`none` when the handler only invoked the error path), whether `next(err)`
was called, the final database state, and the number of persistence queries
executed. -/
structure Outcome where
  emitted : Option Response
  nextCalled : Bool
  db : DB
  queries : Nat
deriving Repr, DecidableEq

/-- The status the client observes: the emitted response's status, or the
generic error handler's 500 when the handler only invoked `next(err)`. -/
def observedStatus (o : Outcome) : Nat :=
  match o.emitted with
  | some r => r.status
  | none => 500

/-- JS truthiness of a possibly-absent string body field (`!x` is true for
undefined and for the empty string). -/
def present (v : Option String) : Bool :=
  match v with
  | none => false
  | some s => !(s == "")

/-- The id-format regular expression of the routes: `^\d+$`. -/
def isIdStr (s : String) : Bool :=
  !(s == "") && s.toList.all Char.isDigit

/-- Numeric value of an id parameter as the SQL layer compares it against an
integer column: the decimal value of an all-digit string (MySQL coerces a
non-numeric string to 0). -/
def strId (s : String) : Nat :=
  if isIdStr s then s.toList.foldl (fun n c => n * 10 + (c.toNat - '0'.toNat)) 0
  else 0

/-- utils.datotekaObstaja: SELECT id FROM datoteka WHERE id = ?. -/
def datotekaObstaja (db : DB) (id : Nat) : Bool :=
  db.datoteka.any (fun d => d.id == id)

/-- utils.kosObstaja: SELECT id FROM kos WHERE id = ?. -/
def kosObstaja (db : DB) (id : Nat) : Bool :=
  db.kos.any (fun k => k.id == id)

/-- utils.labelaObstaja: SELECT id FROM labela WHERE id = ?. -/
def labelaObstaja (db : DB) (id : Nat) : Bool :=
  db.labela.any (fun l => l.id == id)

/-- utils.komentarObstaja: SELECT id FROM komentar WHERE id = ?. -/
def komentarObstaja (db : DB) (id : Nat) : Bool :=
  db.komentar.any (fun k => k.id == id)

/-- utils.uporabnikObstaja, including its leading falsy guard on the name. -/
def uporabnikObstaja (users : List Uporabnik) (u : String) : Bool :=
  !(u == "") && users.any (fun x => x.uporabnisko_ime == u)

/-- utils.urlVira restricted to its base-plus-path use in the routes: strips
trailing slashes from the base and joins the path. -/
def urlVira (base path : String) : String :=
  let b := String.mk ((base.toList.reverse.dropWhile (fun c => c == '/')).reverse)
  if path == "" then b
  else if path.startsWith "/" then b ++ path
  else b ++ "/" ++ path

/-- The fixed logical-type to Content-Type switch of the GET-by-id handlers
(`slika` is the stored value for the image logical type). -/
def contentTypeZaTip (tip : String) : String :=
  if tip == "slika" then "image/jpeg"
  else if tip == "audio" then "audio/mpeg"
  else if tip == "video" then "video/mp4"
  else if tip == "pdf" then "application/pdf"
  else "application/octet-stream"

/-- The MIME to logical-type map of the upload handlers (`mimeMap`). -/
def mimeMap (m : String) : Option String :=
  if m == "image/jpeg" then some "slika"
  else if m == "application/pdf" then some "pdf"
  else if m == "audio/mpeg" then some "audio"
  else if m == "video/mp4" then some "video"
  else none

/-- routes/datoteke.js GET /:id — id-format check, SELECT, 404 on empty row
set, else the raw BLOB with the switched Content-Type. -/
def dat_get_by_id (id : String) (db : DB) : Outcome :=
  if !(isIdStr id) then
    ⟨some (.json 400 "Neustrezen format za ID datoteke"), false, db, 0⟩
  else
    match (db.datoteka.filter (fun d => d.id == strId id)).head? with
    | none =>
        ⟨some (.json 404 ("Datoteka z ID-jem " ++ id ++ " ne obstaja.")), false, db, 1⟩
    | some file =>
        ⟨some (.binary (contentTypeZaTip file.tip) file.vsebina), false, db, 1⟩

/-- The part_001 first-variant GET /:id: no id-format validation at all; the
SELECT runs on whatever the path segment holds and a miss is a 404. -/
def dat_get_by_id_v1 (id : String) (db : DB) : Outcome :=
  match (db.datoteka.filter (fun d => d.id == strId id)).head? with
  | none =>
      ⟨some (.json 404 ("Datoteka z ID-jem " ++ id ++ " ne obstaja.")), false, db, 1⟩
  | some file =>
      ⟨some (.binary (contentTypeZaTip file.tip) file.vsebina), false, db, 1⟩

/-- part_002 (kosi) GET /:id — id-format check, kosObstaja 404 guard, then
the raw BLOB with the switched Content-Type. -/
def kos_get_by_id (id : String) (db : DB) : Outcome :=
  if !(isIdStr id) then
    ⟨some (.json 400 "Neustrezen format za ID kosa!"), false, db, 0⟩
  else if !(kosObstaja db (strId id)) then
    ⟨some (.json 404 ("Kos z ID-jem " ++ id ++ " ne obstaja!")), false, db, 1⟩
  else
    match (db.kos.filter (fun k => k.id == strId id)).head? with
    | none => ⟨none, true, db, 2⟩
    | some file =>
        ⟨some (.binary (contentTypeZaTip file.tip) file.vsebina), false, db, 2⟩

/-- routes/datoteke.js POST / — multipart upload.  `dbCheck` is the state the
name pre-check SELECT observes, `dbIns` the state the INSERT runs against
(they differ exactly when a concurrent request commits in between).  After a
successful INSERT the 201 is emitted and control falls through to the
unconditional `throw`, so `next(err)` fires as well. -/
def dat_post (ime tip : Option String) (file : Option (List Nat))
    (sniff : Option String) (base : String) (dbCheck dbIns : DB) : Outcome :=
  if !(present ime && present tip && file.isSome) then
    ⟨some (.json 400 "Manjkajo podatki za dodajanje nove datoteke!"), false, dbIns, 0⟩
  else
    let imeS := ime.getD ""
    let tipS := tip.getD ""
    let vsebina := file.getD []
    if (dbCheck.datoteka.filter (fun d => d.ime == imeS)).length > 0 then
      ⟨some (.json 409 "Datoteka z istim imenom že obstaja!"), false, dbIns, 1⟩
    else
      match sniff with
      | none => ⟨some (.json 415 "Nepodprt tip datoteke!"), false, dbIns, 1⟩
      | some mime =>
          if !(mimeMap mime == some tipS) then
            ⟨some (.json 400 ("Vsebina datoteke ne ustreza izbranemu tipu " ++ tipS ++ "!")),
              false, dbIns, 1⟩
          else if dbIns.datoteka.any (fun d => d.ime == imeS) then
            ⟨none, true, dbIns, 2⟩
          else
            let newId := (dbIns.datoteka.map (fun d => d.id)).foldr Nat.max 0 + 1
            let db2 := { dbIns with datoteka := dbIns.datoteka ++ [⟨newId, imeS, tipS, vsebina⟩] }
            ⟨some (.created "Datoteka uspešno dodana!"
                (urlVira base ("/datoteke/" ++ Nat.repr newId))), true, db2, 2⟩

/-- part_002 (kosi) POST / — like dat_post plus the allowed-type enum check,
inserting `poskodovano = false`; its 201 is an explicit `return`, so no
fall-through to the throw. -/
def kos_post (ime tip : Option String) (file : Option (List Nat))
    (sniff : Option String) (base : String) (dbCheck dbIns : DB) : Outcome :=
  if !(present ime && present tip && file.isSome) then
    ⟨some (.json 400 "Manjkajo podatki za dodajanje novega kosa!"), false, dbIns, 0⟩
  else
    let imeS := ime.getD ""
    let tipS := tip.getD ""
    let vsebina := file.getD []
    if !(["slika", "audio", "video", "pdf"].contains tipS) then
      ⟨some (.json 400 "Neveljaven tip kosa! Dovoljeni tipi: slika, audio, video, pdf"),
        false, dbIns, 0⟩
    else if (dbCheck.kos.filter (fun k => k.ime == imeS)).length > 0 then
      ⟨some (.json 409 "Kos z istim imenom že obstaja!"), false, dbIns, 1⟩
    else
      match sniff with
      | none => ⟨some (.json 415 "Nepodprt tip kosa!"), false, dbIns, 1⟩
      | some mime =>
          if !(mimeMap mime == some tipS) then
            ⟨some (.json 400 ("Vsebina kosa ne ustreza izbranemu tipu " ++ tipS ++ "!")),
              false, dbIns, 1⟩
          else if dbIns.kos.any (fun k => k.ime == imeS) then
            ⟨none, true, dbIns, 2⟩
          else
            let newId := (dbIns.kos.map (fun k => k.id)).foldr Nat.max 0 + 1
            let db2 := { dbIns with kos := dbIns.kos ++ [⟨newId, imeS, tipS, vsebina, 0⟩] }
            ⟨some (.created "Kos uspešno dodan."
                (urlVira base ("/api/kosi/" ++ Nat.repr newId))), false, db2, 2⟩

/-- routes/datoteke.js DELETE /:id — id check, existence 404, DELETE; on
`affectedRows === 1` the 204 is emitted and control falls through to the
unconditional `throw`, so `next(err)` fires as well. -/
def dat_delete (id : String) (db : DB) : Outcome :=
  if !(isIdStr id) then
    ⟨some (.json 400 "Neustrezen format za ID datoteke"), false, db, 0⟩
  else if !(datotekaObstaja db (strId id)) then
    ⟨some (.json 404 "Datoteka ni najdena."), false, db, 1⟩
  else
    let n := strId id
    let affected := (db.datoteka.filter (fun d => d.id == n)).length
    let db2 := { db with datoteka := db.datoteka.filter (fun d => !(d.id == n)) }
    if affected == 1 then ⟨some .noContent, true, db2, 2⟩
    else ⟨none, true, db2, 2⟩

/-- The JSON body of routes/datoteke.js PUT /:id; the handler destructures
only `ime`, the damaged flag is never read. -/
structure DatPutBody where
  ime : Option String
  poskodovano : Option Bool
deriving Repr, DecidableEq

/-- routes/datoteke.js PUT /:id — id check, existence 404, then 400 unless
`ime` is supplied (the only mutable field here); the UPDATE sets the name
only.  On success the 204 falls through to the unconditional `throw`. -/
def dat_put (id : String) (body : DatPutBody) (db : DB) : Outcome :=
  if !(isIdStr id) then
    ⟨some (.json 400 "Neustrezen format za ID datoteke"), false, db, 0⟩
  else if !(datotekaObstaja db (strId id)) then
    ⟨some (.json 404 "Datoteka ne obstaja!"), false, db, 1⟩
  else if !(present body.ime) then
    ⟨some (.json 400 "Manjka podatek ime za posodabljanje datoteke ali pa ni pravilno vnesen"),
      false, db, 1⟩
  else
    let n := strId id
    let affected := (db.datoteka.filter (fun d => d.id == n)).length
    let db2 := { db with datoteka := db.datoteka.map (fun d =>
        if d.id == n then { d with ime := body.ime.getD "" } else d) }
    if affected == 1 then ⟨some .noContent, true, db2, 2⟩
    else ⟨none, true, db2, 2⟩

/-- The JSON body of the kosi PUT /:id. -/
structure KosPutBody where
  ime : Option String
  poskodovano : Option Bool
deriving Repr, DecidableEq

/-- part_002 (kosi) PUT /:id — id check, existence 404, then the dynamically
built SET clause over exactly the supplied fields (400 when none is
supplied); the 204 is an explicit `return`. -/
def kos_put (id : String) (body : KosPutBody) (db : DB) : Outcome :=
  if !(isIdStr id) then
    ⟨some (.json 400 "Neustrezen format za ID kosa!"), false, db, 0⟩
  else if !(kosObstaja db (strId id)) then
    ⟨some (.json 404 ("Kos z ID-jem " ++ id ++ " ne obstaja!")), false, db, 1⟩
  else if body.ime == none && body.poskodovano == none then
    ⟨some (.json 400 "Ni podatkov za posodobitev!"), false, db, 1⟩
  else
    let n := strId id
    let affected := (db.kos.filter (fun k => k.id == n)).length
    let db2 := { db with kos := db.kos.map (fun k =>
        if k.id == n then
          { k with
            ime := match body.ime with | some i => i | none => k.ime,
            poskodovano := match body.poskodovano with
              | some b => if b then 1 else 0
              | none => k.poskodovano }
        else k) }
    if affected == 1 then ⟨some .noContent, false, db2, 2⟩
    else ⟨none, true, db2, 2⟩

/-- routes/datoteke.js POST /:datoteka_id/labele/:labela_id — both ids
validated, both entities checked, then the INSERT into the association table;
its unique (datoteka_id, labela_id) constraint makes a duplicate pair raise
`ER_DUP_ENTRY`, which the catch translates to 409.  On a successful INSERT
the 201 falls through to the unconditional `throw`; that generic Error has no
`code`, so the catch forwards it to `next(err)`. -/
def dat_labela_post (datoteka_id labela_id : String) (base : String) (db : DB) : Outcome :=
  if datoteka_id == "" || labela_id == "" then
    ⟨some (.json 400 "Manjkajo podatki: datoteka_id ali labela_id."), false, db, 0⟩
  else if !(isIdStr datoteka_id && isIdStr labela_id) then
    ⟨some (.json 400 "ID mora biti številka."), false, db, 0⟩
  else
    let dId := strId datoteka_id
    let lId := strId labela_id
    if !(datotekaObstaja db dId) then
      ⟨some (.json 404 "Datoteka ne obstaja!"), false, db, 1⟩
    else if !(labelaObstaja db lId) then
      ⟨some (.json 404 "Labela ne obstaja!"), false, db, 2⟩
    else if db.datoteka_labela.any (fun p => p == (dId, lId)) then
      ⟨some (.json 409 "Ta labela je že povezana z datoteko."), false, db, 3⟩
    else
      let db2 := { db with datoteka_labela := db.datoteka_labela ++ [(dId, lId)] }
      ⟨some (.created "Labela uspešno dodana na datoteko!"
          (urlVira base ("/datoteke/" ++ datoteka_id ++ "/labele/" ++ labela_id))),
        true, db2, 3⟩

/-- part_002 (kosi) POST /:kos_id/labele/:labela_id — same shape over the
kos tables; its 201 is an explicit `return`, so no fall-through. -/
def kos_labela_post (kos_id labela_id : String) (base : String) (db : DB) : Outcome :=
  if kos_id == "" || labela_id == "" then
    ⟨some (.json 400 "Manjkajo podatki: kos_id ali labela_id!"), false, db, 0⟩
  else if !(isIdStr kos_id && isIdStr labela_id) then
    ⟨some (.json 400 "ID mora biti številka."), false, db, 0⟩
  else
    let kId := strId kos_id
    let lId := strId labela_id
    if !(kosObstaja db kId) then
      ⟨some (.json 404 ("Kos z ID-jem " ++ kos_id ++ " ne obstaja!")), false, db, 1⟩
    else if !(labelaObstaja db lId) then
      ⟨some (.json 404 ("Labela z ID-jem " ++ labela_id ++ " ne obstaja!")), false, db, 2⟩
    else if db.kos_labela.any (fun p => p == (kId, lId)) then
      ⟨some (.json 409 "Ta labela je že povezana s kosom!"), false, db, 3⟩
    else
      let db2 := { db with kos_labela := db.kos_labela ++ [(kId, lId)] }
      ⟨some (.created "Labela uspešno dodana na kos."
          (urlVira base ("/api/kosi/" ++ kos_id ++ "/labele/" ++ labela_id))),
        false, db2, 3⟩

/-- routes/datoteke.js DELETE /:datoteka_id/labele/:labela_id — ids
validated, association looked up (404 when absent), deleted; on success the
204 falls through to the unconditional `throw`. -/
def dat_labela_delete (datoteka_id labela_id : String) (db : DB) : Outcome :=
  if !(isIdStr datoteka_id && isIdStr labela_id) then
    ⟨some (.json 400 "ID mora biti številka."), false, db, 0⟩
  else
    let dId := strId datoteka_id
    let lId := strId labela_id
    let povezava := db.datoteka_labela.filter (fun p => p == (dId, lId))
    if povezava.length == 0 then
      ⟨some (.json 404 "Povezava datoteka_labela ne obstaja!"), false, db, 1⟩
    else
      let db2 := { db with datoteka_labela :=
        db.datoteka_labela.filter (fun p => !(p == (dId, lId))) }
      if povezava.length == 1 then ⟨some .noContent, true, db2, 2⟩
      else ⟨none, true, db2, 2⟩

/-- routes/komentarji.js DELETE /:id (datoteka variant) — id check,
existence 404, DELETE, 204 falling through to the throw. -/
def kom_delete (id : String) (db : DB) : Outcome :=
  if !(isIdStr id) then
    ⟨some (.json 400 "Neustrezen format za ID komentarja!"), false, db, 0⟩
  else if !(komentarObstaja db (strId id)) then
    ⟨some (.json 404 ("Komentar z ID-jem " ++ id ++ " ne obstaja!")), false, db, 1⟩
  else
    let n := strId id
    let affected := (db.komentar.filter (fun k => k.id == n)).length
    let db2 := { db with komentar := db.komentar.filter (fun k => !(k.id == n)) }
    if affected == 1 then ⟨some .noContent, true, db2, 2⟩
    else ⟨none, true, db2, 2⟩

/-- The JSON body of komentarji PUT /:id (datoteka variant). -/
structure KomPutBody where
  datoteka_id : Option String
  besedilo : Option String
  poskodovano : Option Nat
deriving Repr, DecidableEq

/-- routes/komentarji.js PUT /:id (datoteka variant) — validates the body
datoteka_id and the path id formats, checks only the parent datoteka exists
(never the comment itself), validates the mutable fields, then runs the
UPDATE; when the UPDATE matches no row control falls through to the
unconditional `throw` and only `next(err)` runs. -/
def kom_put (id : String) (body : KomPutBody) (db : DB) : Outcome :=
  if !(isIdStr (body.datoteka_id.getD "") && isIdStr id) then
    ⟨some (.json 400 "ID mora biti številka!"), false, db, 0⟩
  else if !(datotekaObstaja db (strId (body.datoteka_id.getD ""))) then
    ⟨some (.json 404 ("Datoteka z ID-jem " ++ body.datoteka_id.getD "" ++ " ne obstaja!")),
      false, db, 1⟩
  else if !(present body.datoteka_id)
      || (!(present body.besedilo)
          && (body.poskodovano == some 0 || body.poskodovano == none)) then
    ⟨some (.json 400 "Manjkajo podatki za posodabljanje komentarja!"), false, db, 1⟩
  else
    let n := strId id
    let affected := (db.komentar.filter (fun k => k.id == n)).length
    let db2 := { db with komentar := db.komentar.map (fun k =>
        if k.id == n then
          { k with besedilo := body.besedilo.getD "",
                   poskodovano := body.poskodovano.getD 0 }
        else k) }
    if affected == 1 then ⟨some .noContent, true, db2, 2⟩
    else ⟨none, true, db2, 2⟩

/-- routes/komentarji.js PUT /:id (kos variant) — same structure over the
kos-variant comment schema: only the parent kos is checked, never the
comment; a zero-row UPDATE falls through to the throw, while the 204 is an
explicit return. -/
def kom_put_kos (id : String) (kos_id besedilo : Option String) (db : DB) : Outcome :=
  if !(isIdStr (kos_id.getD "") && isIdStr id) then
    ⟨some (.json 400 "ID mora biti številka!"), false, db, 0⟩
  else if !(kosObstaja db (strId (kos_id.getD ""))) then
    ⟨some (.json 404 ("Kos z ID-jem " ++ kos_id.getD "" ++ " ne obstaja!")), false, db, 1⟩
  else if !(present kos_id) || !(present besedilo) then
    ⟨some (.json 400 "Manjkajo podatki za posodabljanje komentarja!"), false, db, 1⟩
  else
    let n := strId id
    let affected := (db.komentarK.filter (fun k => k.id == n)).length
    let db2 := { db with komentarK := db.komentarK.map (fun k =>
        if k.id == n then { k with besedilo := besedilo.getD "" } else k) }
    if affected == 1 then ⟨some .noContent, false, db2, 2⟩
    else ⟨none, true, db2, 2⟩

/-- routes/labele.js POST / — field presence, allowed-category enum, name
pre-check (409), INSERT under the unique `naziv` constraint.  A duplicate-key
fault at the INSERT (concurrent duplicate) is not matched by any catch
branch: the handler forwards it to `next(err)`. -/
def lab_post (naziv tip : Option String) (base : String) (dbCheck dbIns : DB) : Outcome :=
  if !(present naziv && present tip) then
    ⟨some (.json 400 "Manjkajo podatki: naziv ali tip!"), false, dbIns, 0⟩
  else
    let nazivS := naziv.getD ""
    let tipS := tip.getD ""
    if !(["pokrajina", "tip_oblacila", "spol", "velikost", "drugo"].contains tipS) then
      ⟨some (.json 400 "Neveljaven tip labele! Dovoljeni tipi: pokrajina, tip_oblacila, spol, velikost, drugo"),
        false, dbIns, 0⟩
    else if (dbCheck.labela.filter (fun l => l.naziv == nazivS)).length > 0 then
      ⟨some (.json 409 "Labela z istim imenom že obstaja!"), false, dbIns, 1⟩
    else if dbIns.labela.any (fun l => l.naziv == nazivS) then
      ⟨none, true, dbIns, 2⟩
    else
      let newId := (dbIns.labela.map (fun l => l.id)).foldr Nat.max 0 + 1
      let db2 := { dbIns with labela := dbIns.labela ++ [⟨newId, nazivS, tipS⟩] }
      ⟨some (.created "Labela uspešno dodana."
          (urlVira base ("/api/labele/" ++ Nat.repr newId))), false, db2, 2⟩

/-- routes/uporabniki.js POST / (registration) — field presence, username
pre-check (409), bcrypt hash (embedded as the `hash` argument), INSERT under
the unique `uporabnisko_ime` constraint.  A duplicate-key fault at the INSERT
is only caught by the generic catch, which forwards it to `next(err)`. -/
def upor_post (uporabnisko_ime geslo tip_uporabnika : Option String)
    (hash : String → String) (base : String) (dbCheck dbIns : DB) : Outcome :=
  if !(present uporabnisko_ime && present geslo && present tip_uporabnika) then
    ⟨some (.json 400 "Manjkajo podatki za registracijo!"), false, dbIns, 0⟩
  else
    let u := uporabnisko_ime.getD ""
    if uporabnikObstaja dbCheck.uporabnik u then
      ⟨some (.json 409 "Uporabniško ime je že zasedeno!"), false, dbIns, 1⟩
    else
      let h := hash (geslo.getD "")
      if dbIns.uporabnik.any (fun x => x.uporabnisko_ime == u) then
        ⟨none, true, dbIns, 2⟩
      else
        let newId := (dbIns.uporabnik.map (fun x => x.id)).foldr Nat.max 0 + 1
        let db2 := { dbIns with uporabnik :=
          dbIns.uporabnik ++ [⟨newId, u, h, tip_uporabnika.getD ""⟩] }
        ⟨some (.created "Uporabnik uspešno dodan!"
            (urlVira base ("/api/uporabniki/" ++ u))), false, db2, 2⟩

/-- jwt.sign of the login payload with `expiresIn` in seconds ('1h' = 3600). -/
def jwtSign (id : Nat) (uporabnisko_ime tip_uporabnika : String)
    (iat expiresInSeconds : Nat) : JwtToken :=
  ⟨id, uporabnisko_ime, tip_uporabnika, iat, iat + expiresInSeconds⟩

/-- routes/uporabniki.js POST /prijava — field presence (400), unknown
username (401), bcrypt.compare mismatch (401 with the same message string),
else a signed token over the stored row's id, username and role with a
1-hour expiry, returned in the 200 body. -/
def prijava (uporabnisko_ime geslo : Option String)
    (cmp : String → String → Bool) (now : Nat) (db : DB) : Outcome :=
  if !(present uporabnisko_ime && present geslo) then
    ⟨some (.json 400 "Manjkajo podatki za prijavo!"), false, db, 0⟩
  else
    let u := uporabnisko_ime.getD ""
    if !(uporabnikObstaja db.uporabnik u) then
      ⟨some (.json 401 "Uporabnik z vpisanim uporabniškim imenom ne obstaja ali pa kombinacija uporabniškega imena in gesla ni pravilna!"),
        false, db, 1⟩
    else
      match (db.uporabnik.filter (fun x => x.uporabnisko_ime == u)).head? with
      | none => ⟨none, true, db, 2⟩
      | some usr =>
          if !(cmp (geslo.getD "") usr.geslo) then
            ⟨some (.json 401 "Uporabnik z vpisanim uporabniškim imenom ne obstaja ali pa kombinacija uporabniškega imena in gesla ni pravilna!"),
              false, db, 2⟩
          else
            let token := jwtSign usr.id usr.uporabnisko_ime usr.tip_uporabnika now 3600
            ⟨some (.loginOk "Prijava uspešna!" token usr.uporabnisko_ime), false, db, 2⟩

/-- routes/komentarji.js GET /datoteka/:datoteka_id (datoteka variant) —
id-format check, parent existence 404, then the SELECT of the comments.  In
this and the three read endpoints below the 200 body (the serialized row
set) is elided: no claim inspects it, only the guard order, the status and
the query count matter here. -/
def kom_get_za_datoteko (datoteka_id : String) (db : DB) : Outcome :=
  if !(isIdStr datoteka_id) then
    ⟨some (.json 400 "Neustrezen format za ID datoteke!"), false, db, 0⟩
  else if !(datotekaObstaja db (strId datoteka_id)) then
    ⟨some (.json 404 ("Datoteka z ID-jem " ++ datoteka_id ++ " ne obstaja!")), false, db, 1⟩
  else
    ⟨some (.json 200 ""), false, db, 2⟩

/-- routes/komentarji.js GET /:id (datoteka variant) — id-format check,
existence 404, then the SELECT of the comment row. -/
def kom_get_by_id (id : String) (db : DB) : Outcome :=
  if !(isIdStr id) then
    ⟨some (.json 400 "Neustrezen format za ID komentarja!"), false, db, 0⟩
  else if !(komentarObstaja db (strId id)) then
    ⟨some (.json 404 ("Komentar z ID-jem " ++ id ++ " ne obstaja!")), false, db, 1⟩
  else
    ⟨some (.json 200 ""), false, db, 2⟩

/-- routes/datoteke.js GET /labele/:labela_id — id-format check, label
existence 404, then the join SELECT of the files carrying the label. -/
def dat_get_z_labelo (labela_id : String) (db : DB) : Outcome :=
  if !(isIdStr labela_id) then
    ⟨some (.json 400 "Neustrezen format za ID labele."), false, db, 0⟩
  else if !(labelaObstaja db (strId labela_id)) then
    ⟨some (.json 404 ("Labela z ID-jem " ++ labela_id ++ " ne obstaja.")), false, db, 1⟩
  else
    ⟨some (.json 200 ""), false, db, 2⟩

/-- routes/labele.js GET /:id — id-format check, existence 404, then the
SELECT of the label row. -/
def lab_get_by_id (id : String) (db : DB) : Outcome :=
  if !(isIdStr id) then
    ⟨some (.json 400 "Neustrezen format za ID labela!"), false, db, 0⟩
  else if !(labelaObstaja db (strId id)) then
    ⟨some (.json 404 ("Labela z ID-jem " ++ id ++ " ne obstaja!")), false, db, 1⟩
  else
    ⟨some (.json 200 ""), false, db, 2⟩

/-- utils.komentarObstaja as deployed with the kos-variant comment schema:
the same SELECT id FROM komentar WHERE id = ?, over the kos-variant table. -/
def komentarKObstaja (db : DB) (id : Nat) : Bool :=
  db.komentarK.any (fun k => k.id == id)

/-- routes/labele.js DELETE /:id — id check, existence 404, DELETE; the 204
is an explicit return, a zero-row DELETE falls to the throw and next(err). -/
def lab_delete (id : String) (db : DB) : Outcome :=
  if !(isIdStr id) then
    ⟨some (.json 400 "Neustrezen format za ID labela!"), false, db, 0⟩
  else if !(labelaObstaja db (strId id)) then
    ⟨some (.json 404 ("Labela z ID-jem " ++ id ++ " ne obstaja!")), false, db, 1⟩
  else
    let n := strId id
    let affected := (db.labela.filter (fun l => l.id == n)).length
    let db2 := { db with labela := db.labela.filter (fun l => !(l.id == n)) }
    if affected == 1 then ⟨some .noContent, false, db2, 2⟩
    else ⟨none, true, db2, 2⟩

/-- routes/labele.js GET /:id/datoteke — id check, label existence 404,
then the join SELECT of the files carrying the label (200 body elided). -/
def lab_get_datoteke (id : String) (db : DB) : Outcome :=
  if !(isIdStr id) then
    ⟨some (.json 400 "Neustrezen format za ID labele!"), false, db, 0⟩
  else if !(labelaObstaja db (strId id)) then
    ⟨some (.json 404 ("Labela z ID-jem " ++ id ++ " ne obstaja!")), false, db, 1⟩
  else
    ⟨some (.json 200 ""), false, db, 2⟩

/-- routes/labele.js GET /datoteka/:datoteka_id — id check, file existence
404, then the join SELECT of the file's labels (200 body elided). -/
def lab_get_za_datoteko (datoteka_id : String) (db : DB) : Outcome :=
  if !(isIdStr datoteka_id) then
    ⟨some (.json 400 "Neustrezen format za ID datoteke!"), false, db, 0⟩
  else if !(datotekaObstaja db (strId datoteka_id)) then
    ⟨some (.json 404 ("Datoteka z ID-jem " ++ datoteka_id ++ " ne obstaja!")), false, db, 1⟩
  else
    ⟨some (.json 200 ""), false, db, 2⟩

/-- part_002 (kosi) DELETE /:id — id check, existence 404, DELETE; the 204
is an explicit return, a zero-row DELETE falls to the throw. -/
def kos_delete (id : String) (db : DB) : Outcome :=
  if !(isIdStr id) then
    ⟨some (.json 400 "Neustrezen format za ID kosa!"), false, db, 0⟩
  else if !(kosObstaja db (strId id)) then
    ⟨some (.json 404 ("Kos z ID-jem " ++ id ++ " ne obstaja!")), false, db, 1⟩
  else
    let n := strId id
    let affected := (db.kos.filter (fun k => k.id == n)).length
    let db2 := { db with kos := db.kos.filter (fun k => !(k.id == n)) }
    if affected == 1 then ⟨some .noContent, false, db2, 2⟩
    else ⟨none, true, db2, 2⟩

/-- part_002 (kosi) DELETE /:kos_id/labele/:labela_id — ids validated,
association looked up (404 when absent), deleted; the 204 is an explicit
return. -/
def kos_labela_delete (kos_id labela_id : String) (db : DB) : Outcome :=
  if !(isIdStr kos_id && isIdStr labela_id) then
    ⟨some (.json 400 "ID mora biti številka!"), false, db, 0⟩
  else
    let kId := strId kos_id
    let lId := strId labela_id
    let povezava := db.kos_labela.filter (fun p => p == (kId, lId))
    if povezava.length == 0 then
      ⟨some (.json 404 "Povezava kos_labela ne obstaja!"), false, db, 1⟩
    else
      let db2 := { db with kos_labela := db.kos_labela.filter (fun p => !(p == (kId, lId))) }
      if povezava.length == 1 then ⟨some .noContent, false, db2, 2⟩
      else ⟨none, true, db2, 2⟩

/-- routes/komentarji.js GET /kos/:kos_id (kos variant) — id check, parent
existence 404, then the SELECT of the kos's comments (200 body elided). -/
def kom_get_za_kos (kos_id : String) (db : DB) : Outcome :=
  if !(isIdStr kos_id) then
    ⟨some (.json 400 "Neustrezen format za ID kosa!"), false, db, 0⟩
  else if !(kosObstaja db (strId kos_id)) then
    ⟨some (.json 404 ("Kos z ID-jem " ++ kos_id ++ " ne obstaja!")), false, db, 1⟩
  else
    ⟨some (.json 200 ""), false, db, 2⟩

/-- routes/komentarji.js GET /:id (kos variant) — id check, existence 404,
then the SELECT of the comment row (200 body elided). -/
def kom_get_by_id_kos (id : String) (db : DB) : Outcome :=
  if !(isIdStr id) then
    ⟨some (.json 400 "Neustrezen format za ID komentarja!"), false, db, 0⟩
  else if !(komentarKObstaja db (strId id)) then
    ⟨some (.json 404 ("Komentar z ID-jem " ++ id ++ " ne obstaja!")), false, db, 1⟩
  else
    ⟨some (.json 200 ""), false, db, 2⟩

/-- routes/komentarji.js DELETE /:id (kos variant) — id check, existence
404, DELETE; the 204 is an explicit return, a zero-row DELETE falls to the
throw. -/
def kom_delete_kos (id : String) (db : DB) : Outcome :=
  if !(isIdStr id) then
    ⟨some (.json 400 "Neustrezen format za ID komentarja!"), false, db, 0⟩
  else if !(komentarKObstaja db (strId id)) then
    ⟨some (.json 404 ("Komentar z ID-jem " ++ id ++ " ne obstaja!")), false, db, 1⟩
  else
    let n := strId id
    let affected := (db.komentarK.filter (fun k => k.id == n)).length
    let db2 := { db with komentarK := db.komentarK.filter (fun k => !(k.id == n)) }
    if affected == 1 then ⟨some .noContent, false, db2, 2⟩
    else ⟨none, true, db2, 2⟩

/-- The empty database. -/
def emptyDB : DB := ⟨[], [], [], [], [], [], [], []⟩

/-- A database holding one datoteka named "a". -/
def exDB1 : DB := { emptyDB with datoteka := [⟨1, "a", "pdf", [0]⟩] }

/-- A database holding one labela named "l". -/
def exLabDB : DB := { emptyDB with labela := [⟨1, "l", "drugo"⟩] }

/-- A database holding one uporabnik named "u". -/
def exUserDB : DB := { emptyDB with uporabnik := [⟨1, "u", "hh", "plesalec/-ka"⟩] }

/-- A database with one row in every table the witnesses touch. -/
def wDB : DB :=
  { datoteka := [⟨1, "a", "slika", [9]⟩]
    kos := [⟨1, "b", "pdf", [7], 0⟩]
    labela := [⟨2, "l", "drugo"⟩]
    komentar := [⟨5, 1, "hej", 0⟩]
    komentarK := [⟨6, 1, 1, "hoj"⟩]
    uporabnik := [⟨1, "u", "hh", "plesalec/-ka"⟩]
    datoteka_labela := []
    kos_labela := [] }

/-- C1: the claim quantifies over every upload with name, type and payload
present and asserts an unrecognized byte signature always yields 415; but the
duplicate-name pre-check runs first, so an unrecognized payload whose name is
already taken gets 409, not 415. -/
theorem C1_counterexample :
    (dat_post (some "a") (some "pdf") (some [1]) none "h" exDB1 exDB1).emitted
        = some (.json 409 "Datoteka z istim imenom že obstaja!")
    ∧ (dat_post (some "a") (some "pdf") (some [1]) none "h" exDB1 exDB1).emitted.map
        Response.status = some 409
    ∧ (409 : Nat) ≠ 415 := by
  refine ⟨rfl, rfl, by decide⟩

/-- C2: the claim asserts every id-accepting endpoint returns 400 before any
persistence query on a non-numeric id; the part_001 first-variant GET /:id
has no format check: on id "abc" it executes the SELECT (one query) and
answers 404. -/
theorem C2_counterexample :
    isIdStr "abc" = false
    ∧ (dat_get_by_id_v1 "abc" emptyDB).queries = 1
    ∧ (dat_get_by_id_v1 "abc" emptyDB).emitted.map Response.status = some 404 := by
  refine ⟨by decide, rfl, rfl⟩

/-- C3: for the uniquely-named creates (datoteka, labela, uporabnik) a
duplicate-key fault raised by the INSERT after a passing pre-check (the
concurrent-duplicate race) is not translated to 409: all three catch blocks
forward it to next(err) and the client observes the generic 500.  The first
database state is what the pre-existence SELECT saw (no duplicate), the
second is what the INSERT ran against (the concurrent twin already
committed). -/
theorem C3_code_evaluation :
    ((dat_post (some "a") (some "pdf") (some [1]) (some "application/pdf") "h"
        emptyDB exDB1).emitted = none
      ∧ (dat_post (some "a") (some "pdf") (some [1]) (some "application/pdf") "h"
        emptyDB exDB1).nextCalled = true
      ∧ observedStatus (dat_post (some "a") (some "pdf") (some [1])
          (some "application/pdf") "h" emptyDB exDB1) = 500)
    ∧ ((lab_post (some "l") (some "drugo") "h" emptyDB exLabDB).emitted = none
      ∧ (lab_post (some "l") (some "drugo") "h" emptyDB exLabDB).nextCalled = true
      ∧ observedStatus (lab_post (some "l") (some "drugo") "h" emptyDB exLabDB) = 500)
    ∧ ((upor_post (some "u") (some "p") (some "plesalec/-ka") (fun g => g) "h"
        emptyDB exUserDB).emitted = none
      ∧ (upor_post (some "u") (some "p") (some "plesalec/-ka") (fun g => g) "h"
        emptyDB exUserDB).nextCalled = true
      ∧ observedStatus (upor_post (some "u") (some "p") (some "plesalec/-ka")
          (fun g => g) "h" emptyDB exUserDB) = 500) := by
  refine ⟨⟨rfl, rfl, rfl⟩, ⟨rfl, rfl, rfl⟩, ⟨rfl, rfl, rfl⟩⟩

/-- C5: the claim asserts a PUT supplying the damaged flag (but no name) on
an existing garment updates that field and returns 204; the datoteke-variant
handler reads only `ime` from the body, so that request gets 400 and the row
is unchanged. -/
theorem C5_counterexample :
    (dat_put "1" ⟨none, some true⟩ exDB1).emitted
        = some (.json 400 "Manjka podatek ime za posodabljanje datoteke ali pa ni pravilno vnesen")
    ∧ (dat_put "1" ⟨none, some true⟩ exDB1).db = exDB1
    ∧ (400 : Nat) ≠ 204 := by
  refine ⟨by decide, by decide, by decide⟩

/-- A well-formed id string is nonempty. -/
theorem isIdStr_ne_empty {s : String} (h : isIdStr s = true) : (s == "") = false := by
  unfold isIdStr at h
  simp only [Bool.and_eq_true, Bool.not_eq_true'] at h
  exact h.1

/-- C8: GET of an existing garment by a well-formed id returns the raw stored
bytes with a Content-Type derived from the stored logical type via the fixed
map (slika is the stored image type), defaulting to application/octet-stream;
both the datoteke and the kosi variant behave so. -/
theorem C8_content_type (id : String) (db : DB) (f : Datoteka) (k : Kos)
    (hid : isIdStr id = true)
    (hrow : (db.datoteka.filter (fun d => d.id == strId id)).head? = some f)
    (hkos : kosObstaja db (strId id) = true)
    (hkrow : (db.kos.filter (fun x => x.id == strId id)).head? = some k) :
    (dat_get_by_id id db).emitted = some (.binary (contentTypeZaTip f.tip) f.vsebina)
    ∧ (kos_get_by_id id db).emitted = some (.binary (contentTypeZaTip k.tip) k.vsebina)
    ∧ contentTypeZaTip "slika" = "image/jpeg"
    ∧ contentTypeZaTip "audio" = "audio/mpeg"
    ∧ contentTypeZaTip "video" = "video/mp4"
    ∧ contentTypeZaTip "pdf" = "application/pdf"
    ∧ (∀ t, t ≠ "slika" → t ≠ "audio" → t ≠ "video" → t ≠ "pdf" →
        contentTypeZaTip t = "application/octet-stream") := by
  refine ⟨?_, ?_, rfl, rfl, rfl, rfl, ?_⟩
  · simp [dat_get_by_id, hid, hrow]
  · simp [kos_get_by_id, hid, hkos, hkrow]
  · intro t h1 h2 h3 h4
    simp [contentTypeZaTip, h1, h2, h3, h4]

/-- C10: PUT /komentarji/:id never checks the comment with the path id
exists; with a well-formed path id matching no comment row, an existing
parent and the mutable fields supplied, the UPDATE matches zero rows and the
handler falls through to the throw: only next(err) runs and the client
observes 500, never a 404 for the missing comment.  Both the
datoteka-variant and the kos-variant handlers behave so. -/
theorem C10_put_missing_comment (id dId bes kid kbes : String) (p : Nat) (db : DB)
    (hid : isIdStr id = true) (hdId : isIdStr dId = true)
    (hpar : datotekaObstaja db (strId dId) = true)
    (hbes : bes ≠ "")
    (hcnt : (db.komentar.filter (fun k => k.id == strId id)).length = 0)
    (hkid : isIdStr kid = true)
    (hkpar : kosObstaja db (strId kid) = true)
    (hkbes : kbes ≠ "")
    (hkcnt : (db.komentarK.filter (fun k => k.id == strId id)).length = 0) :
    ((kom_put id ⟨some dId, some bes, some p⟩ db).emitted = none
      ∧ (kom_put id ⟨some dId, some bes, some p⟩ db).nextCalled = true
      ∧ observedStatus (kom_put id ⟨some dId, some bes, some p⟩ db) = 500)
    ∧ ((kom_put_kos id (some kid) (some kbes) db).emitted = none
      ∧ (kom_put_kos id (some kid) (some kbes) db).nextCalled = true
      ∧ observedStatus (kom_put_kos id (some kid) (some kbes) db) = 500) := by
  have hd0 := isIdStr_ne_empty hdId
  have hk0 := isIdStr_ne_empty hkid
  constructor
  · simp [kom_put, observedStatus, present, hid, hdId, hpar, hcnt, hbes, hd0]
  · simp [kom_put_kos, observedStatus, present, hid, hkid, hkpar, hkcnt, hkbes, hk0]

/-- C6: with both credentials present, an unknown username and a known
username with a failing hash comparison both yield 401 with the identical
message string, so the two failure causes are indistinguishable from the
response. -/
theorem C6_login_indistinguishable
    (u1 g1 u2 g2 : String) (cmp : String → String → Bool) (now : Nat)
    (db : DB) (usr : Uporabnik)
    (hu1 : u1 ≠ "") (hg1 : g1 ≠ "") (hu2 : u2 ≠ "") (hg2 : g2 ≠ "")
    (hunk : uporabnikObstaja db.uporabnik u1 = false)
    (hobst : uporabnikObstaja db.uporabnik u2 = true)
    (hrow : (db.uporabnik.filter (fun x => x.uporabnisko_ime == u2)).head? = some usr)
    (hbad : cmp g2 usr.geslo = false) :
    ∃ m, (prijava (some u1) (some g1) cmp now db).emitted = some (.json 401 m)
      ∧ (prijava (some u2) (some g2) cmp now db).emitted = some (.json 401 m) := by
  refine ⟨"Uporabnik z vpisanim uporabniškim imenom ne obstaja ali pa kombinacija uporabniškega imena in gesla ni pravilna!", ?_, ?_⟩
  · simp [prijava, present, hu1, hg1, hunk]
  · simp [prijava, present, hu2, hg2, hobst, hrow, hbad]

/-- C7: on a successful login the token in the 200 body embeds exactly the
stored row's id, username and role, is issued at the current time and
expires exactly 3600 seconds (the jsonwebtoken meaning of the fixed '1h')
after issuance. -/
theorem C7_token (u g : String) (cmp : String → String → Bool) (now : Nat)
    (db : DB) (usr : Uporabnik)
    (hu : u ≠ "") (hg : g ≠ "")
    (hobst : uporabnikObstaja db.uporabnik u = true)
    (hrow : (db.uporabnik.filter (fun x => x.uporabnisko_ime == u)).head? = some usr)
    (hok : cmp g usr.geslo = true) :
    (prijava (some u) (some g) cmp now db).emitted
      = some (.loginOk "Prijava uspešna!"
          ⟨usr.id, usr.uporabnisko_ime, usr.tip_uporabnika, now, now + 3600⟩
          usr.uporabnisko_ime) := by
  simp [prijava, present, jwtSign, hu, hg, hobst, hrow, hok]

/-- C4: with both entities existing, both ids well-formed and the pair not
yet associated, the first association add answers 201 and stores the pair;
repeating the identical request hits the unique-pair constraint, whose
ER_DUP_ENTRY the catch translates to 409 (leaving the state unchanged),
in both the datoteke and the kosi router. -/
theorem C4_assoc_twice (ds ls base : String) (db : DB)
    (hds : isIdStr ds = true) (hls : isIdStr ls = true)
    (hdat : datotekaObstaja db (strId ds) = true)
    (hlab : labelaObstaja db (strId ls) = true)
    (hkos : kosObstaja db (strId ds) = true)
    (hfresh : db.datoteka_labela.any (fun p => p == (strId ds, strId ls)) = false)
    (hfreshK : db.kos_labela.any (fun p => p == (strId ds, strId ls)) = false) :
    ((dat_labela_post ds ls base db).emitted.map Response.status = some 201)
    ∧ ((strId ds, strId ls) ∈ (dat_labela_post ds ls base db).db.datoteka_labela)
    ∧ ((dat_labela_post ds ls base (dat_labela_post ds ls base db).db).emitted
        = some (.json 409 "Ta labela je že povezana z datoteko."))
    ∧ ((dat_labela_post ds ls base (dat_labela_post ds ls base db).db).db
        = (dat_labela_post ds ls base db).db)
    ∧ ((kos_labela_post ds ls base db).emitted.map Response.status = some 201)
    ∧ ((kos_labela_post ds ls base (kos_labela_post ds ls base db).db).emitted
        = some (.json 409 "Ta labela je že povezana s kosom!")) := by
  have hd0 := isIdStr_ne_empty hds
  have hl0 := isIdStr_ne_empty hls
  simp only [datotekaObstaja] at hdat
  simp only [labelaObstaja] at hlab
  simp only [kosObstaja] at hkos
  have e1 : dat_labela_post ds ls base db =
      ⟨some (.created "Labela uspešno dodana na datoteko!"
          (urlVira base ("/datoteke/" ++ ds ++ "/labele/" ++ ls))), true,
        { db with datoteka_labela := db.datoteka_labela ++ [(strId ds, strId ls)] }, 3⟩ := by
    simp [dat_labela_post, datotekaObstaja, labelaObstaja, hd0, hl0, hds, hls, hdat, hlab,
      hfresh]
  have e2 : kos_labela_post ds ls base db =
      ⟨some (.created "Labela uspešno dodana na kos."
          (urlVira base ("/api/kosi/" ++ ds ++ "/labele/" ++ ls))), false,
        { db with kos_labela := db.kos_labela ++ [(strId ds, strId ls)] }, 3⟩ := by
    simp [kos_labela_post, kosObstaja, labelaObstaja, hd0, hl0, hds, hls, hkos, hlab, hfreshK]
  refine ⟨?_, ?_, ?_, ?_, ?_, ?_⟩
  · rw [e1]; rfl
  · rw [e1]; simp
  · rw [e1]
    simp [dat_labela_post, datotekaObstaja, labelaObstaja, hd0, hl0, hds, hls, hdat, hlab,
      hfresh]
  · rw [e1]
    simp [dat_labela_post, datotekaObstaja, labelaObstaja, hd0, hl0, hds, hls, hdat, hlab,
      hfresh]
  · rw [e2]; rfl
  · rw [e2]
    simp [kos_labela_post, kosObstaja, labelaObstaja, hd0, hl0, hds, hls, hkos, hlab, hfreshK]

/-- C9: in the datoteke router (routes/datoteke.js), every mutating handler
whose persistence statement succeeds with affectedRows = 1 first emits its
success response (201 or 204) and then falls through to the unconditional
throw, so next(err) — and through it the generic 500 handler — is invoked on
every successful create, delete, update, association add and association
remove. -/
theorem C9_fallthrough
    (ime tip : String) (bs : List Nat) (mime base : String) (dbC : DB)
    (hime : ime ≠ "") (htip : tip ≠ "")
    (hfresh1 : (dbC.datoteka.filter (fun d => d.ime == ime)).length = 0)
    (hfresh2 : dbC.datoteka.any (fun d => d.ime == ime) = false)
    (hmap : mimeMap mime = some tip)
    (idD : String) (dbD : DB)
    (hidD : isIdStr idD = true)
    (hobD : datotekaObstaja dbD (strId idD) = true)
    (hcntD : (dbD.datoteka.filter (fun d => d.id == strId idD)).length = 1)
    (idU imU : String) (pU : Option Bool) (dbU : DB)
    (hidU : isIdStr idU = true) (himU : imU ≠ "")
    (hobU : datotekaObstaja dbU (strId idU) = true)
    (hcntU : (dbU.datoteka.filter (fun d => d.id == strId idU)).length = 1)
    (da la : String) (dbA : DB)
    (hda : isIdStr da = true) (hla : isIdStr la = true)
    (hobA : datotekaObstaja dbA (strId da) = true)
    (hlabA : labelaObstaja dbA (strId la) = true)
    (hfreshA : dbA.datoteka_labela.any (fun p => p == (strId da, strId la)) = false)
    (dr lr : String) (dbR : DB)
    (hdr : isIdStr dr = true) (hlr : isIdStr lr = true)
    (hcntR : (dbR.datoteka_labela.filter (fun p => p == (strId dr, strId lr))).length = 1) :
    ((dat_post (some ime) (some tip) (some bs) (some mime) base dbC dbC).emitted.map
        Response.status = some 201
      ∧ (dat_post (some ime) (some tip) (some bs) (some mime) base dbC dbC).nextCalled = true)
    ∧ ((dat_delete idD dbD).emitted = some .noContent
      ∧ (dat_delete idD dbD).nextCalled = true)
    ∧ ((dat_put idU ⟨some imU, pU⟩ dbU).emitted = some .noContent
      ∧ (dat_put idU ⟨some imU, pU⟩ dbU).nextCalled = true)
    ∧ ((dat_labela_post da la base dbA).emitted.map Response.status = some 201
      ∧ (dat_labela_post da la base dbA).nextCalled = true)
    ∧ ((dat_labela_delete dr lr dbR).emitted = some .noContent
      ∧ (dat_labela_delete dr lr dbR).nextCalled = true) := by
  refine ⟨?_, ?_, ?_, ?_, ?_⟩
  · simp [dat_post, present, Response.status, hime, htip, hfresh1, hfresh2, hmap]
  · simp [dat_delete, hidD, hobD, hcntD]
  · simp [dat_put, present, hidU, hobU, hcntU, himU]
  · have ha0 := isIdStr_ne_empty hda
    have hl0 := isIdStr_ne_empty hla
    simp [dat_labela_post, Response.status, ha0, hl0, hda, hla, hobA, hlabA, hfreshA]
  · simp [dat_labela_delete, hdr, hlr, hcntR]

/-- C1 (amended): for an upload with name, declared type and payload present
whose declared type passes the kosi variant's allowed-type check and whose
name is not already taken: an unrecognized byte signature yields 415 with no
row inserted; a recognized signature whose mapped logical type differs from
the declared one yields 400 naming the mismatch with no row inserted; the
row is inserted (and 201 emitted) exactly when the mapped type equals the
declared type — in both the datoteke and kosi upload handlers. -/
theorem C1_amended (ime tip : String) (bs : List Nat) (base : String) (db : DB)
    (hime : ime ≠ "") (htip : tip ≠ "")
    (hfD1 : (db.datoteka.filter (fun d => d.ime == ime)).length = 0)
    (hfD2 : db.datoteka.any (fun d => d.ime == ime) = false)
    (hfK1 : (db.kos.filter (fun k => k.ime == ime)).length = 0)
    (hfK2 : db.kos.any (fun k => k.ime == ime) = false)
    (htipA : ["slika", "audio", "video", "pdf"].contains tip = true) :
    ((dat_post (some ime) (some tip) (some bs) none base db db).emitted
        = some (.json 415 "Nepodprt tip datoteke!")
      ∧ (dat_post (some ime) (some tip) (some bs) none base db db).db = db
      ∧ (kos_post (some ime) (some tip) (some bs) none base db db).emitted
        = some (.json 415 "Nepodprt tip kosa!")
      ∧ (kos_post (some ime) (some tip) (some bs) none base db db).db = db)
    ∧ (∀ m, mimeMap m ≠ some tip →
        (dat_post (some ime) (some tip) (some bs) (some m) base db db).emitted
          = some (.json 400 ("Vsebina datoteke ne ustreza izbranemu tipu " ++ tip ++ "!"))
        ∧ (dat_post (some ime) (some tip) (some bs) (some m) base db db).db = db
        ∧ (kos_post (some ime) (some tip) (some bs) (some m) base db db).emitted
          = some (.json 400 ("Vsebina kosa ne ustreza izbranemu tipu " ++ tip ++ "!"))
        ∧ (kos_post (some ime) (some tip) (some bs) (some m) base db db).db = db)
    ∧ (∀ m, mimeMap m = some tip →
        (dat_post (some ime) (some tip) (some bs) (some m) base db db).emitted.map
            Response.status = some 201
        ∧ (∃ r ∈ (dat_post (some ime) (some tip) (some bs) (some m) base db db).db.datoteka,
            r.ime = ime ∧ r.tip = tip ∧ r.vsebina = bs)
        ∧ (kos_post (some ime) (some tip) (some bs) (some m) base db db).emitted.map
            Response.status = some 201
        ∧ (∃ r ∈ (kos_post (some ime) (some tip) (some bs) (some m) base db db).db.kos,
            r.ime = ime ∧ r.tip = tip ∧ r.vsebina = bs))
    ∧ (∀ s, (dat_post (some ime) (some tip) (some bs) s base db db).db ≠ db →
        s.bind mimeMap = some tip)
    ∧ (∀ s, (kos_post (some ime) (some tip) (some bs) s base db db).db ≠ db →
        s.bind mimeMap = some tip) := by
  have htipA' : tip = "slika" ∨ tip = "audio" ∨ tip = "video" ∨ tip = "pdf" := by
    simpa using htipA
  have hcond : ¬(¬tip = "slika" ∧ ¬tip = "audio" ∧ ¬tip = "video" ∧ ¬tip = "pdf") := by
    rcases htipA' with h | h | h | h <;> simp [h]
  refine ⟨?_, ?_, ?_, ?_, ?_⟩
  · refine ⟨?_, ?_, ?_, ?_⟩ <;>
      simp [dat_post, kos_post, present, hime, htip, hfD1, hfK1, hcond]
  · intro m hm
    refine ⟨?_, ?_, ?_, ?_⟩ <;>
      simp [dat_post, kos_post, present, hime, htip, hfD1, hfK1, hcond, hm]
  · intro m hm
    refine ⟨?_, ?_, ?_, ?_⟩
    · simp [dat_post, present, Response.status, hime, htip, hfD1, hfD2, hm]
    · simp [dat_post, present, hime, htip, hfD1, hfD2, hm]
      refine ⟨_, Or.inr rfl, ?_, ?_, ?_⟩ <;> rfl
    · simp [kos_post, present, Response.status, hime, htip, hfK1, hfK2, hcond, hm]
    · simp [kos_post, present, hime, htip, hfK1, hfK2, hcond, hm]
      refine ⟨_, Or.inr rfl, ?_, ?_, ?_⟩ <;> rfl
  · intro s hne
    match s with
    | none =>
        exact absurd (by simp [dat_post, present, hime, htip, hfD1]) hne
    | some m =>
        by_cases hm : mimeMap m = some tip
        · simpa using hm
        · exact absurd (by simp [dat_post, present, hime, htip, hfD1, hm]) hne
  · intro s hne
    match s with
    | none =>
        exact absurd (by simp [kos_post, present, hime, htip, hfK1, hcond]) hne
    | some m =>
        by_cases hm : mimeMap m = some tip
        · simpa using hm
        · exact absurd (by simp [kos_post, present, hime, htip, hfK1, hcond, hm]) hne

/-- C5 (amended): updating an existing row by a well-formed id.  In the kosi
variant the claim holds as stated: no supplied field yields 400 with the row
unchanged, otherwise the dynamically built SET clause covers exactly the
supplied fields, every other column and row keeps its previous value, and
the response is 204.  In the datoteke variant the only mutable field is the
name: a request without a name yields 400 and leaves the row unchanged even
when the damaged flag is supplied, and a request with a name updates exactly
the name and returns 204. -/
theorem C5_amended (id : String) (db : DB)
    (hid : isIdStr id = true)
    (hobst : kosObstaja db (strId id) = true)
    (hcnt : (db.kos.filter (fun x => x.id == strId id)).length = 1)
    (hdobst : datotekaObstaja db (strId id) = true)
    (hdcnt : (db.datoteka.filter (fun x => x.id == strId id)).length = 1) :
    ((kos_put id ⟨none, none⟩ db).emitted = some (.json 400 "Ni podatkov za posodobitev!")
      ∧ (kos_put id ⟨none, none⟩ db).db = db)
    ∧ (∀ body : KosPutBody, (body.ime ≠ none ∨ body.poskodovano ≠ none) →
        (kos_put id body db).emitted = some .noContent
        ∧ (kos_put id body db).db.kos = db.kos.map (fun r =>
            if r.id == strId id then
              { r with
                ime := match body.ime with | some i => i | none => r.ime,
                poskodovano := match body.poskodovano with
                  | some b => if b then 1 else 0
                  | none => r.poskodovano }
            else r)
        ∧ (∀ r ∈ db.kos, (r.id == strId id) = false → r ∈ (kos_put id body db).db.kos)
        ∧ (kos_put id body db).db.datoteka = db.datoteka
        ∧ (kos_put id body db).db.labela = db.labela)
    ∧ (∀ p : Option Bool,
        (dat_put id ⟨none, p⟩ db).emitted.map Response.status = some 400
        ∧ (dat_put id ⟨none, p⟩ db).db = db)
    ∧ (∀ im : String, im ≠ "" → ∀ p : Option Bool,
        (dat_put id ⟨some im, p⟩ db).emitted = some .noContent
        ∧ (dat_put id ⟨some im, p⟩ db).db.datoteka = db.datoteka.map (fun r =>
            if r.id == strId id then { r with ime := im } else r)) := by
  refine ⟨⟨?_, ?_⟩, ?_, ?_, ?_⟩
  · simp [kos_put, hid, hobst]
  · simp [kos_put, hid, hobst]
  · intro body hbody
    have hnotboth : ¬(body.ime = none ∧ body.poskodovano = none) := by
      rcases hbody with hb | hb
      · exact fun hc => hb hc.1
      · exact fun hc => hb hc.2
    refine ⟨?_, ?_, ?_, ?_, ?_⟩
    · simp [kos_put, hid, hobst, hcnt, hnotboth]
    · simp [kos_put, hid, hobst, hcnt, hnotboth]
    · intro r hr hrid
      have hrid' : ¬(r.id = strId id) := by simpa using hrid
      simp [kos_put, hid, hobst, hcnt, hnotboth]
      exact ⟨r, hr, by simp [hrid']⟩
    · simp [kos_put, hid, hobst, hcnt, hnotboth]
    · simp [kos_put, hid, hobst, hcnt, hnotboth]
  · intro p
    refine ⟨?_, ?_⟩ <;> simp [dat_put, present, Response.status, hid, hdobst]
  · intro im him p
    refine ⟨?_, ?_⟩ <;> simp [dat_put, present, hid, hdobst, hdcnt, him]

/-- C2 (amended): in the current-variant routers (datoteke.js, komentarji.js,
labele.js and the kosi router), every id-accepting endpoint whose id path
segment fails the ^\d+$ pattern answers 400 without a single persistence
query; the early variants (the first document of part_001 and the comments
router shipped next to the uporabniki router) lack this validation on
several endpoints and run the query directly. -/
theorem C2_amended (id other : String) (db : DB) (bodyD : DatPutBody)
    (bodyK : KomPutBody) (bodyKos : KosPutBody) (kosId bes : Option String) (base : String)
    (h : isIdStr id = false) (hother : isIdStr other = true) :
    ((dat_get_by_id id db).emitted.map Response.status = some 400
      ∧ (dat_get_by_id id db).queries = 0)
    ∧ ((dat_delete id db).emitted.map Response.status = some 400
      ∧ (dat_delete id db).queries = 0)
    ∧ ((dat_put id bodyD db).emitted.map Response.status = some 400
      ∧ (dat_put id bodyD db).queries = 0)
    ∧ ((kos_get_by_id id db).emitted.map Response.status = some 400
      ∧ (kos_get_by_id id db).queries = 0)
    ∧ ((kos_put id bodyKos db).emitted.map Response.status = some 400
      ∧ (kos_put id bodyKos db).queries = 0)
    ∧ ((kom_get_za_datoteko id db).emitted.map Response.status = some 400
      ∧ (kom_get_za_datoteko id db).queries = 0)
    ∧ ((kom_get_by_id id db).emitted.map Response.status = some 400
      ∧ (kom_get_by_id id db).queries = 0)
    ∧ ((kom_delete id db).emitted.map Response.status = some 400
      ∧ (kom_delete id db).queries = 0)
    ∧ ((kom_put id bodyK db).emitted.map Response.status = some 400
      ∧ (kom_put id bodyK db).queries = 0)
    ∧ ((kom_put_kos id kosId bes db).emitted.map Response.status = some 400
      ∧ (kom_put_kos id kosId bes db).queries = 0)
    ∧ ((dat_get_z_labelo id db).emitted.map Response.status = some 400
      ∧ (dat_get_z_labelo id db).queries = 0)
    ∧ ((lab_get_by_id id db).emitted.map Response.status = some 400
      ∧ (lab_get_by_id id db).queries = 0)
    ∧ ((dat_labela_post id other base db).emitted.map Response.status = some 400
      ∧ (dat_labela_post id other base db).queries = 0)
    ∧ ((dat_labela_post other id base db).emitted.map Response.status = some 400
      ∧ (dat_labela_post other id base db).queries = 0)
    ∧ ((dat_labela_delete id other db).emitted.map Response.status = some 400
      ∧ (dat_labela_delete id other db).queries = 0)
    ∧ ((dat_labela_delete other id db).emitted.map Response.status = some 400
      ∧ (dat_labela_delete other id db).queries = 0)
    ∧ ((kos_labela_post id other base db).emitted.map Response.status = some 400
      ∧ (kos_labela_post id other base db).queries = 0)
    ∧ ((kos_labela_post other id base db).emitted.map Response.status = some 400
      ∧ (kos_labela_post other id base db).queries = 0)
    ∧ ((lab_delete id db).emitted.map Response.status = some 400
      ∧ (lab_delete id db).queries = 0)
    ∧ ((lab_get_datoteke id db).emitted.map Response.status = some 400
      ∧ (lab_get_datoteke id db).queries = 0)
    ∧ ((lab_get_za_datoteko id db).emitted.map Response.status = some 400
      ∧ (lab_get_za_datoteko id db).queries = 0)
    ∧ ((kos_delete id db).emitted.map Response.status = some 400
      ∧ (kos_delete id db).queries = 0)
    ∧ ((kos_labela_delete id other db).emitted.map Response.status = some 400
      ∧ (kos_labela_delete id other db).queries = 0)
    ∧ ((kos_labela_delete other id db).emitted.map Response.status = some 400
      ∧ (kos_labela_delete other id db).queries = 0)
    ∧ ((kom_get_za_kos id db).emitted.map Response.status = some 400
      ∧ (kom_get_za_kos id db).queries = 0)
    ∧ ((kom_get_by_id_kos id db).emitted.map Response.status = some 400
      ∧ (kom_get_by_id_kos id db).queries = 0)
    ∧ ((kom_delete_kos id db).emitted.map Response.status = some 400
      ∧ (kom_delete_kos id db).queries = 0) := by
  have ho0 := isIdStr_ne_empty hother
  refine ⟨?_, ?_, ?_, ?_, ?_, ?_, ?_, ?_, ?_, ?_, ?_, ?_, ?_, ?_, ?_, ?_, ?_, ?_, ?_, ?_,
    ?_, ?_, ?_, ?_, ?_, ?_, ?_⟩
  · exact ⟨by simp [dat_get_by_id, Response.status, h], by simp [dat_get_by_id, h]⟩
  · exact ⟨by simp [dat_delete, Response.status, h], by simp [dat_delete, h]⟩
  · exact ⟨by simp [dat_put, Response.status, h], by simp [dat_put, h]⟩
  · exact ⟨by simp [kos_get_by_id, Response.status, h], by simp [kos_get_by_id, h]⟩
  · exact ⟨by simp [kos_put, Response.status, h], by simp [kos_put, h]⟩
  · exact ⟨by simp [kom_get_za_datoteko, Response.status, h],
      by simp [kom_get_za_datoteko, h]⟩
  · exact ⟨by simp [kom_get_by_id, Response.status, h], by simp [kom_get_by_id, h]⟩
  · exact ⟨by simp [kom_delete, Response.status, h], by simp [kom_delete, h]⟩
  · exact ⟨by simp [kom_put, Response.status, h], by simp [kom_put, h]⟩
  · exact ⟨by simp [kom_put_kos, Response.status, h], by simp [kom_put_kos, h]⟩
  · exact ⟨by simp [dat_get_z_labelo, Response.status, h], by simp [dat_get_z_labelo, h]⟩
  · exact ⟨by simp [lab_get_by_id, Response.status, h], by simp [lab_get_by_id, h]⟩
  · by_cases h0 : id = "" <;>
      exact ⟨by simp [dat_labela_post, Response.status, h0, h, ho0],
        by simp [dat_labela_post, h0, h, ho0]⟩
  · by_cases h0 : id = "" <;>
      exact ⟨by simp [dat_labela_post, Response.status, h0, h, ho0],
        by simp [dat_labela_post, h0, h, ho0]⟩
  · exact ⟨by simp [dat_labela_delete, Response.status, h], by simp [dat_labela_delete, h]⟩
  · exact ⟨by simp [dat_labela_delete, Response.status, h], by simp [dat_labela_delete, h]⟩
  · by_cases h0 : id = "" <;>
      exact ⟨by simp [kos_labela_post, Response.status, h0, h, ho0],
        by simp [kos_labela_post, h0, h, ho0]⟩
  · by_cases h0 : id = "" <;>
      exact ⟨by simp [kos_labela_post, Response.status, h0, h, ho0],
        by simp [kos_labela_post, h0, h, ho0]⟩
  · exact ⟨by simp [lab_delete, Response.status, h], by simp [lab_delete, h]⟩
  · exact ⟨by simp [lab_get_datoteke, Response.status, h], by simp [lab_get_datoteke, h]⟩
  · exact ⟨by simp [lab_get_za_datoteko, Response.status, h],
      by simp [lab_get_za_datoteko, h]⟩
  · exact ⟨by simp [kos_delete, Response.status, h], by simp [kos_delete, h]⟩
  · exact ⟨by simp [kos_labela_delete, Response.status, h], by simp [kos_labela_delete, h]⟩
  · exact ⟨by simp [kos_labela_delete, Response.status, h], by simp [kos_labela_delete, h]⟩
  · exact ⟨by simp [kom_get_za_kos, Response.status, h], by simp [kom_get_za_kos, h]⟩
  · exact ⟨by simp [kom_get_by_id_kos, Response.status, h], by simp [kom_get_by_id_kos, h]⟩
  · exact ⟨by simp [kom_delete_kos, Response.status, h], by simp [kom_delete_kos, h]⟩

/-- wDB with one stored association pair. -/
def wDB2 : DB := { wDB with datoteka_labela := [(1, 2)] }

/-- Witness for C8 at id "1" over wDB. -/
theorem C8_witness :
    (dat_get_by_id "1" wDB).emitted = some (.binary "image/jpeg" [9])
    ∧ (kos_get_by_id "1" wDB).emitted = some (.binary "application/pdf" [7]) :=
  ⟨(C8_content_type "1" wDB ⟨1, "a", "slika", [9]⟩ ⟨1, "b", "pdf", [7], 0⟩
      (by decide) (by decide) (by decide) (by decide)).1,
   (C8_content_type "1" wDB ⟨1, "a", "slika", [9]⟩ ⟨1, "b", "pdf", [7], 0⟩
      (by decide) (by decide) (by decide) (by decide)).2.1⟩

/-- Witness for C10 at comment id "9" (absent) with existing parents. -/
theorem C10_witness :
    observedStatus (kom_put "9" ⟨some "1", some "x", some 1⟩ wDB) = 500
    ∧ observedStatus (kom_put_kos "9" (some "1") (some "y") wDB) = 500 := by
  obtain ⟨hD, hK⟩ := C10_put_missing_comment "9" "1" "x" "1" "y" 1 wDB
    (by decide) (by decide) (by decide) (by decide) (by decide)
    (by decide) (by decide) (by decide) (by decide)
  exact ⟨hD.2.2, hK.2.2⟩

/-- Witness for C6: an unknown username and a known username with a wrong
password produce the same 401 response. -/
theorem C6_witness :
    (prijava (some "ghost") (some "x") (fun g h => g == h) 0 wDB).emitted
      = (prijava (some "u") (some "bad") (fun g h => g == h) 0 wDB).emitted
    ∧ (prijava (some "ghost") (some "x") (fun g h => g == h) 0 wDB).emitted.map
        Response.status = some 401 := by
  obtain ⟨m, h1, h2⟩ := C6_login_indistinguishable "ghost" "x" "u" "bad"
    (fun g h => g == h) 0 wDB ⟨1, "u", "hh", "plesalec/-ka"⟩
    (by decide) (by decide) (by decide) (by decide)
    (by decide) (by decide) (by decide) (by decide)
  exact ⟨h1.trans h2.symm, by rw [h1]; rfl⟩

/-- Witness for C7 at the stored user "u", issued at time 42. -/
theorem C7_witness :
    (prijava (some "u") (some "hh") (fun g h => g == h) 42 wDB).emitted
      = some (.loginOk "Prijava uspešna!" ⟨1, "u", "plesalec/-ka", 42, 3642⟩ "u") :=
  C7_token "u" "hh" (fun g h => g == h) 42 wDB ⟨1, "u", "hh", "plesalec/-ka"⟩
    (by decide) (by decide) (by decide) (by decide) (by decide)

/-- Witness for C4: adding the association (1, 2) twice over wDB. -/
theorem C4_witness :
    (dat_labela_post "1" "2" "http://h" wDB).emitted.map Response.status = some 201
    ∧ (dat_labela_post "1" "2" "http://h"
        (dat_labela_post "1" "2" "http://h" wDB).db).emitted
      = some (.json 409 "Ta labela je že povezana z datoteko.")
    ∧ (kos_labela_post "1" "2" "http://h"
        (kos_labela_post "1" "2" "http://h" wDB).db).emitted
      = some (.json 409 "Ta labela je že povezana s kosom!") := by
  obtain ⟨h1, h2, h3, h4, h5, h6⟩ := C4_assoc_twice "1" "2" "http://h" wDB
    (by decide) (by decide) (by decide) (by decide) (by decide) (by decide) (by decide)
  exact ⟨h1, h3, h6⟩

/-- Witness for C9: each mutating datoteke handler, run on its success path,
emits the success response and still invokes next(err). -/
theorem C9_witness :
    (dat_post (some "n") (some "slika") (some [1]) (some "image/jpeg") "http://h"
        wDB wDB).emitted.map Response.status = some 201
    ∧ (dat_post (some "n") (some "slika") (some [1]) (some "image/jpeg") "http://h"
        wDB wDB).nextCalled = true
    ∧ (dat_delete "1" wDB).nextCalled = true
    ∧ (dat_put "1" ⟨some "z", none⟩ wDB).nextCalled = true
    ∧ (dat_labela_post "1" "2" "http://h" wDB).nextCalled = true
    ∧ (dat_labela_delete "1" "2" wDB2).nextCalled = true := by
  obtain ⟨p1, p2, p3, p4, p5⟩ := C9_fallthrough "n" "slika" [1] "image/jpeg" "http://h" wDB
    (by decide) (by decide) (by decide) (by decide) (by decide)
    "1" wDB (by decide) (by decide) (by decide)
    "1" "z" none wDB (by decide) (by decide) (by decide) (by decide)
    "1" "2" wDB (by decide) (by decide) (by decide) (by decide) (by decide)
    "1" "2" wDB2 (by decide) (by decide) (by decide)
  exact ⟨p1.1, p1.2, p2.2, p3.2, p4.2, p5.2⟩

/-- Witness for the amended C1 at a fresh name over wDB. -/
theorem C1_amended_witness :
    (dat_post (some "n") (some "slika") (some [1]) none "http://h" wDB wDB).emitted
      = some (.json 415 "Nepodprt tip datoteke!")
    ∧ (kos_post (some "n") (some "slika") (some [1]) none "http://h" wDB wDB).emitted
      = some (.json 415 "Nepodprt tip kosa!")
    ∧ (dat_post (some "n") (some "slika") (some [1]) (some "application/pdf") "http://h"
        wDB wDB).emitted = some (.json 400 "Vsebina datoteke ne ustreza izbranemu tipu slika!")
    ∧ (dat_post (some "n") (some "slika") (some [1]) (some "image/jpeg") "http://h"
        wDB wDB).emitted.map Response.status = some 201 := by
  obtain ⟨b415, b400, b201, onlyD, onlyK⟩ := C1_amended "n" "slika" [1] "http://h" wDB
    (by decide) (by decide) (by decide) (by decide) (by decide) (by decide) (by decide)
  exact ⟨b415.1, b415.2.2.1, (b400 "application/pdf" (by decide)).1,
    (b201 "image/jpeg" (by decide)).1⟩

/-- Witness for the amended C5 at id "1" over wDB. -/
theorem C5_amended_witness :
    (kos_put "1" ⟨none, none⟩ wDB).emitted = some (.json 400 "Ni podatkov za posodobitev!")
    ∧ (kos_put "1" ⟨some "nn", some true⟩ wDB).emitted = some .noContent
    ∧ (dat_put "1" ⟨none, some true⟩ wDB).emitted.map Response.status = some 400
    ∧ (dat_put "1" ⟨some "nn", none⟩ wDB).emitted = some .noContent := by
  obtain ⟨b1, b2, b3, b4⟩ := C5_amended "1" wDB
    (by decide) (by decide) (by decide) (by decide) (by decide)
  exact ⟨b1.1, (b2 ⟨some "nn", some true⟩ (Or.inl (by decide))).1,
    (b3 (some true)).1, (b4 "nn" (by decide) none).1⟩

/-- Witness for the amended C2 at the malformed id "x". -/
theorem C2_amended_witness :
    (dat_get_by_id "x" wDB).emitted.map Response.status = some 400
    ∧ (dat_get_by_id "x" wDB).queries = 0
    ∧ (dat_labela_post "x" "1" "http://h" wDB).emitted.map Response.status = some 400
    ∧ (dat_labela_post "x" "1" "http://h" wDB).queries = 0 := by
  obtain ⟨h1, h2, h3, h4, h5, h6, h7, h8, h9, h10, h11, h12, h13, h14, h15, h16, h17, h18,
      h19, h20, h21, h22, h23, h24, h25, h26, h27⟩ :=
    C2_amended "x" "1" wDB ⟨none, none⟩ ⟨none, none, none⟩ ⟨none, none⟩ none none "http://h"
      (by decide) (by decide)
  exact ⟨h1.1, h1.2, h13.1, h13.2⟩

end Folklora
